import Mathlib

/-!
Verification development for the OddsStream client core
(frontend/src/services/linera-client.ts): order batching, cross-chain
routing, nonce sequencing, TTL caching and push subscriptions.

The TypeScript class `OddsStreamClient` is embedded shallowly: each
method becomes a pure Lean function over explicit state, external
collaborators (the nonce endpoint, the cross-chain send endpoint, the
GraphQL server, wall-clock time, the random id generator) become
parameters collected in an environment record, and every network
interaction is recorded in an explicit effect trace so that claims of
the form "performs no network call" are statements about that trace.
-/

namespace OddsStream

/-- Order side, the string union YES | NO of the source. -/
inductive Side where
  | YES
  | NO
deriving DecidableEq

/-- Wire order status union of the source. -/
inductive OrderStatus where
  | pending
  | confirmed
  | failed
  | executed
deriving DecidableEq

/-- The `Order` interface of linera-client.ts (lines 27-35).
Optional fields are `Option`; `amount` is the decimal string of the source. -/
structure Order where
  id : Option String := none
  marketId : String
  side : Side
  amount : String
  maxPrice : Option String := none
  timestamp : Option Nat := none
  status : Option OrderStatus := none
deriving DecidableEq

/-- The `WalletState` interface (lines 47-54); `provider` is kept as a plain
optional string since its value never influences the verified paths. -/
structure WalletState where
  address : String
  chainId : String
  balance : String
  isConnected : Bool
  provider : Option String := none
  userChainId : Option String := none
deriving DecidableEq

/-- The batch message built in `submitBatchedOrders` (lines 526-532):
literal type tag, user chain, per-destination order list, nonce, timestamp. -/
structure BatchMessage where
  msgType : String
  userChainId : String
  orders : List Order
  nonce : Nat
  timestamp : Nat
deriving DecidableEq

/-- The `BatchResponse` interface (lines 66-71), without the unused
`estimatedGas` optional field. -/
structure BatchResponse where
  transactionIds : List String
  totalOrders : Nat
  timestamp : Nat
deriving DecidableEq

/-- Observable network interactions of the client: a nonce fetch
(`getNonce`, line 857), a cross-chain send (`sendCrossChainMessage`,
line 815) and a GraphQL request (`graphqlRequest`, line 798). -/
inductive Effect where
  | nonceFetch (chainId : String)
  | sendMessage (fromChainId toChainId : String) (msg : BatchMessage)
  | graphqlRequest (operation : String) (param : String)
deriving DecidableEq

/-- Environment of external collaborators for one dispatch:
`registry` is the static market registry `LOCAL_CONFIG.APPLICATIONS.EXAMPLE_MARKETS`
as (market id, app id) pairs, `nonces k` is the value the k-th nonce fetch
returns, `sends k` the k-th cross-chain send outcome (transaction id, or the
statusText of a non-ok response), `now` the wall clock and `genId i` the
collision-resistant id generated for the i-th order lacking one. -/
structure DispatchEnv where
  registry : List (String × String)
  nonces : Nat → Nat
  sends : Nat → Except String String
  now : Nat
  genId : Nat → String

/-- The JavaScript truthiness coercion `a || b` on optional strings: an
absent value and the empty string are falsy. -/
def jsStrOr (a b : Option String) : Option String :=
  match a with
  | some s => if s = "" then b else some s
  | none => b

/-- `getMarketChainId` (lines 842-855): look the market up in the static
registry; a hit yields a chain id derived from the first 16 characters of
the registered app id, a miss yields the deterministic fallback id derived
from the first 8 characters of the market id. Total: no throwing path. -/
def getMarketChainId (registry : List (String × String)) (marketId : String) : String :=
  match registry.find? (fun m => m.1 = marketId) with
  | some m => "chain-" ++ m.2.take 16
  | none => "chain-fallback-" ++ marketId.take 8

/-- The per-order stamping inside the grouping loop of `submitBatchedOrders`
(lines 514-519): assign an id when the existing one is absent or falsy,
stamp the submission time and the pending status. `i` is the position of
the order in the submitted list. -/
def stampOrder (env : DispatchEnv) (i : Nat) (o : Order) : Order :=
  { o with
      id := some (match o.id with
        | some s => if s = "" then env.genId i else s
        | none => env.genId i),
      timestamp := some env.now,
      status := some OrderStatus.pending }

/-- Insertion into the `ordersByMarket` record (lines 510-519): JavaScript
objects with non-integer string keys preserve first-insertion key order, so
the record is an association list; a new destination is appended at the
end, an existing destination has the order appended to its bucket. -/
def insertGrouped (groups : List (String × List Order)) (key : String) (o : Order) :
    List (String × List Order) :=
  match groups with
  | [] => [(key, [o])]
  | (k, os) :: rest =>
      if k = key then (k, os ++ [o]) :: rest
      else (k, os) :: insertGrouped rest key o

/-- The grouping loop of `submitBatchedOrders` (lines 506-520), with `i`
the index of the next order and `gs` the groups built so far. -/
def groupOrdersAux (env : DispatchEnv) (gs : List (String × List Order)) (i : Nat) :
    List Order → List (String × List Order)
  | [] => gs
  | o :: rest =>
      groupOrdersAux env
        (insertGrouped gs (getMarketChainId env.registry o.marketId) (stampOrder env i o))
        (i + 1) rest

/-- Partition of a submitted order list into dispatch groups keyed by
destination chain, in first-seen destination order. -/
def groupOrders (env : DispatchEnv) (orders : List Order) : List (String × List Order) :=
  groupOrdersAux env [] 0 orders

/-- The dispatch loop of `submitBatchedOrders` (lines 523-542): for each
group in order, fetch the next nonce for the user chain, build the batch
message and send it cross-chain; a failed send aborts the loop with the
error of `sendCrossChainMessage` (line 835). `k` counts the groups already
dispatched; the k-th group performs the k-th nonce fetch and the k-th send.
Returns the collected transaction ids (or the first error) and the effect
trace. -/
def dispatchGroups (env : DispatchEnv) (uc : String) :
    List (String × List Order) → Nat → Except String (List String) × List Effect
  | [], _ => (Except.ok [], [])
  | (mcid, os) :: rest, k =>
      let msg : BatchMessage :=
        { msgType := "BatchedOrders", userChainId := uc, orders := os,
          nonce := env.nonces k, timestamp := env.now }
      match env.sends k with
      | Except.error e =>
          (Except.error ("Cross-chain message failed: " ++ e),
           [Effect.nonceFetch uc, Effect.sendMessage uc mcid msg])
      | Except.ok tx =>
          let r := dispatchGroups env uc rest (k + 1)
          (r.1.map (fun txs => tx :: txs),
           Effect.nonceFetch uc :: Effect.sendMessage uc mcid msg :: r.2)

/-- `submitBatchedOrders` (lines 490-549): require a connected wallet,
resolve the user chain (explicit argument or the wallet one, with
JavaScript falsiness), group the orders by destination chain, dispatch one
message per group and aggregate the transaction ids. The second component
is the trace of network effects the call performed. -/
def submitBatchedOrders (env : DispatchEnv) (wallet : Option WalletState)
    (orders : List Order) (userChainId : Option String) :
    Except String BatchResponse × List Effect :=
  match wallet with
  | none => (Except.error "Wallet not connected", [])
  | some w =>
      match jsStrOr userChainId w.userChainId with
      | none => (Except.error "User chain ID not found", [])
      | some tc =>
          if tc = "" then (Except.error "User chain ID not found", [])
          else
            let r := dispatchGroups env tc (groupOrders env orders) 0
            (r.1.map (fun txs =>
                { transactionIds := txs, totalOrders := orders.length, timestamp := env.now }),
             r.2)

/-- Destination and message of every cross-chain send in a trace, in send
order. -/
def sentMessages (tr : List Effect) : List (String × BatchMessage) :=
  tr.filterMap (fun e => match e with
    | Effect.sendMessage _ toChain msg => some (toChain, msg)
    | _ => none)

/-- Claim C1: calling `submitBatchedOrders` while no wallet session is
active fails with the Unauthenticated error string "Wallet not connected"
and performs no network effect at all: the trace is empty, so no RPC
request, no nonce fetch and no cross-chain message happened. -/
theorem submitBatchedOrders_unauthenticated (env : DispatchEnv)
    (orders : List Order) (userChainId : Option String) :
    submitBatchedOrders env none orders userChainId =
      (Except.error "Wallet not connected", []) := rfl

/-- Claim C5: destination-chain resolution is a total function that never
throws; a market id present in the static registry resolves to the chain
id derived from its registered app id, and an unknown market id resolves
to the deterministic fallback identifier derived from the market id. -/
theorem getMarketChainId_routing (registry : List (String × String)) (mid : String) :
    (∀ e, registry.find? (fun m => m.1 = mid) = some e →
        getMarketChainId registry mid = "chain-" ++ e.2.take 16) ∧
    (registry.find? (fun m => m.1 = mid) = none →
        getMarketChainId registry mid = "chain-fallback-" ++ mid.take 8) := by
  constructor
  · intro e h
    simp [getMarketChainId, h]
  · intro h
    simp [getMarketChainId, h]

/-- Witness for C5: a concrete one-entry registry; the registered market
resolves through its app id, an unknown market resolves to the fallback. -/
theorem getMarketChainId_routing_witness :
    getMarketChainId [("m1", "app-0123456789abcdef")] "m1" =
        "chain-" ++ "app-0123456789abcdef".take 16 ∧
    getMarketChainId [("m1", "app-0123456789abcdef")] "m2" =
        "chain-fallback-" ++ "m2".take 8 :=
  ⟨(getMarketChainId_routing [("m1", "app-0123456789abcdef")] "m1").1
      ("m1", "app-0123456789abcdef") rfl,
   (getMarketChainId_routing [("m1", "app-0123456789abcdef")] "m2").2 rfl⟩

/-- Claim C4: a flush of 5 orders, 3 routed to destination `c1` and 2 to
destination `c2`, with an active session, sends exactly 2 outbound
cross-chain messages, one per destination in first-seen destination order,
each carrying its own nonce (the 0th and 1st values issued by the nonce
endpoint, distinct by the endpoint contract), and returns totalOrders = 5
with exactly the 2 transaction identifiers of the sends. -/
theorem submit_two_destinations
    (env : DispatchEnv) (w : WalletState) (uc c1 c2 t0 t1 : String)
    (o1 o2 o3 o4 o5 : Order)
    (huc : uc ≠ "")
    (h1 : getMarketChainId env.registry o1.marketId = c1)
    (h2 : getMarketChainId env.registry o2.marketId = c1)
    (h3 : getMarketChainId env.registry o3.marketId = c1)
    (h4 : getMarketChainId env.registry o4.marketId = c2)
    (h5 : getMarketChainId env.registry o5.marketId = c2)
    (hcc : c1 ≠ c2)
    (hs0 : env.sends 0 = Except.ok t0)
    (hs1 : env.sends 1 = Except.ok t1)
    (hnn : env.nonces 0 ≠ env.nonces 1) :
    ∃ m1 m2,
      sentMessages (submitBatchedOrders env (some w) [o1, o2, o3, o4, o5] (some uc)).2
        = [(c1, m1), (c2, m2)] ∧
      m1.nonce = env.nonces 0 ∧ m2.nonce = env.nonces 1 ∧ m1.nonce ≠ m2.nonce ∧
      m1.orders = [stampOrder env 0 o1, stampOrder env 1 o2, stampOrder env 2 o3] ∧
      m2.orders = [stampOrder env 3 o4, stampOrder env 4 o5] ∧
      (submitBatchedOrders env (some w) [o1, o2, o3, o4, o5] (some uc)).1
        = Except.ok { transactionIds := [t0, t1], totalOrders := 5, timestamp := env.now } := by
  refine ⟨{ msgType := "BatchedOrders", userChainId := uc,
            orders := [stampOrder env 0 o1, stampOrder env 1 o2, stampOrder env 2 o3],
            nonce := env.nonces 0, timestamp := env.now },
          { msgType := "BatchedOrders", userChainId := uc,
            orders := [stampOrder env 3 o4, stampOrder env 4 o5],
            nonce := env.nonces 1, timestamp := env.now }, ?_⟩
  have hcc2 : c2 ≠ c1 := hcc.symm
  simp [submitBatchedOrders, jsStrOr, huc, groupOrders, groupOrdersAux, insertGrouped,
        h1, h2, h3, h4, h5, hcc, hcc2, dispatchGroups, hs0, hs1, sentMessages, hnn,
        Except.map]

/-- Concrete dispatch environment for scenario instantiation: empty static
registry (every market routes through the fallback), nonce endpoint
issuing 0, 1, 2, ..., sends answering with transaction ids tx0, tx1, ... -/
def envW : DispatchEnv :=
  { registry := [],
    nonces := fun k => k,
    sends := fun k => Except.ok ("tx" ++ toString k),
    now := 1000,
    genId := fun i => "gen" ++ toString i }

/-- Concrete connected wallet for scenario instantiation. -/
def walletW : WalletState :=
  { address := "0xabc", chainId := "root-chain", balance := "0",
    isConnected := true, provider := some "linera", userChainId := some "user-chain" }

/-- Minimal concrete order for a given market. -/
def ordW (m : String) : Order := { marketId := m, side := Side.YES, amount := "10" }

/-- Witness for C4: five concrete orders, three on market marketAAA and two
on market marketBBB, flushed with wallet `walletW`; the two destinations
are the two fallback chains, the nonces are 0 and 1, the result carries
totalOrders = 5 and transaction ids tx0 and tx1. -/
theorem submit_two_destinations_witness :
    ∃ m1 m2,
      sentMessages (submitBatchedOrders envW (some walletW)
          [ordW "marketAAA", ordW "marketAAA", ordW "marketAAA",
           ordW "marketBBB", ordW "marketBBB"] (some "user-chain")).2
        = [("chain-fallback-marketAA", m1), ("chain-fallback-marketBB", m2)] ∧
      m1.nonce = envW.nonces 0 ∧ m2.nonce = envW.nonces 1 ∧ m1.nonce ≠ m2.nonce ∧
      m1.orders = [stampOrder envW 0 (ordW "marketAAA"), stampOrder envW 1 (ordW "marketAAA"),
                   stampOrder envW 2 (ordW "marketAAA")] ∧
      m2.orders = [stampOrder envW 3 (ordW "marketBBB"), stampOrder envW 4 (ordW "marketBBB")] ∧
      (submitBatchedOrders envW (some walletW)
          [ordW "marketAAA", ordW "marketAAA", ordW "marketAAA",
           ordW "marketBBB", ordW "marketBBB"] (some "user-chain")).1
        = Except.ok { transactionIds := ["tx0", "tx1"], totalOrders := 5, timestamp := envW.now } :=
  submit_two_destinations envW walletW "user-chain"
    "chain-fallback-marketAA" "chain-fallback-marketBB" "tx0" "tx1"
    (ordW "marketAAA") (ordW "marketAAA") (ordW "marketAAA")
    (ordW "marketBBB") (ordW "marketBBB")
    (by decide) rfl rfl rfl rfl rfl (by decide) rfl rfl (by decide)

/-- One cache entry as stored by `cacheData` (lines 873-877): the payload
and the insertion time. The per-kind ttl passed to `cacheData` is NOT
stored in the entry. -/
structure CacheEntryM (α : Type) where
  data : α
  timestamp : Nat
deriving DecidableEq

/-- The `cache` Map of the client together with the eviction timeouts
scheduled by `cacheData` (lines 879-882): each timer deletes its key once
its fire time is reached. -/
structure CacheState (α : Type) where
  entries : List (String × CacheEntryM α)
  timers : List (String × Nat)
deriving DecidableEq

/-- Cache state of a fresh client: empty Map, no pending timers. -/
def emptyCache {α : Type} : CacheState α := ⟨[], []⟩

/-- Map.set on an association list: replace the value under an existing
key, append a new key at the end. -/
def setAssoc {β : Type} (l : List (String × β)) (k : String) (v : β) : List (String × β) :=
  match l with
  | [] => [(k, v)]
  | (k0, v0) :: rest => if k0 = k then (k, v) :: rest else (k0, v0) :: setAssoc rest k v

/-- `cacheData` (lines 873-883): store the payload with the current time
and schedule a deletion of the key `ttl` milliseconds later. -/
def cacheData {α : Type} (st : CacheState α) (key : String) (d : α) (now ttl : Nat) :
    CacheState α :=
  { entries := setAssoc st.entries key ⟨d, now⟩,
    timers := st.timers ++ [(key, now + ttl)] }

/-- Time passage: every scheduled deletion whose fire time has been
reached deletes its key; fired timers are dropped. -/
def fireDueTimers {α : Type} (st : CacheState α) (now : Nat) : CacheState α :=
  { entries := st.entries.filter (fun ent =>
      ! st.timers.any (fun t => decide (t.1 = ent.1) && decide (t.2 ≤ now))),
    timers := st.timers.filter (fun t => ! decide (t.2 ≤ now)) }

/-- `getCachedData` (lines 863-871): return the stored payload when the
entry exists and its age is below the comparison TTL. The source compares
against the single global constant `CACHE_TTL.MARKET_LIST` whatever ttl the
entry was stored with; that constant lives in the config module and is the
`listTTL` parameter here. -/
def getCachedData {α : Type} (listTTL : Nat) (st : CacheState α) (key : String) (now : Nat) :
    Option α :=
  match st.entries.find? (fun ent => ent.1 = key) with
  | some ent => if now - ent.2.timestamp < listTTL then some ent.2.data else none
  | none => none

/-- Counterexample to claim C3: an entry stored with ttl = 10 and read at
elapsed time 7 < 10 is reported absent whenever the global list TTL (here
5) is smaller, because `getCachedData` checks staleness against the global
list TTL and not against the ttl the entry was stored with. -/
theorem cache_perEntry_ttl_false :
    (7 : Nat) < 10 ∧
    getCachedData 5 (fireDueTimers (cacheData (emptyCache : CacheState Nat) "k" 42 0 10) 7) "k" 7
      = none := by
  constructor
  · decide
  · rfl

/-- Claim C3 amended: a cache set of (k, v) at time t0 with expiry ttl
followed by a get of k at elapsed time e returns v exactly when e is below
BOTH the per-entry ttl (which only drives the deletion timer) and the
global list TTL used for the staleness comparison; it returns absent once
either bound is reached. -/
theorem cache_get_after_set (α : Type) (listTTL : Nat) (k : String) (d : α) (t0 ttl e : Nat) :
    getCachedData listTTL (fireDueTimers (cacheData (emptyCache : CacheState α) k d t0 ttl) (t0 + e)) k (t0 + e)
      = if e < ttl ∧ e < listTTL then some d else none := by
  by_cases hte : ttl ≤ e
  · simp [cacheData, emptyCache, setAssoc, fireDueTimers, getCachedData, hte,
          Nat.not_lt.mpr hte]
  · have he : e < ttl := Nat.lt_of_not_le hte
    simp [cacheData, emptyCache, setAssoc, fireDueTimers, getCachedData, hte, he,
          Nat.add_sub_cancel_left]

/-- Cache key of `queryMarkets` (line 402): the template literal
interpolates `JSON.stringify(filters)`, which is the string "undefined"
when the filters argument is absent and the JSON serialization of the
filters value otherwise. -/
def marketsCacheKey (filtersJson : Option String) : String :=
  "markets:" ++ (match filtersJson with
    | none => "undefined"
    | some s => s)

/-- Map.delete on the cache (line 478): remove the entry under the key;
the source does not cancel any pending eviction timer. -/
def cacheDelete {α : Type} (st : CacheState α) (key : String) : CacheState α :=
  { st with entries := st.entries.filter (fun ent => ! decide (ent.1 = key)) }

/-- `queryMarkets` (lines 401-416): compute the cache key, serve a fresh
cached list without any network request, otherwise issue the GetMarkets
GraphQL request and cache the server answer under the key with the
market-list TTL. Markets are abstracted to their ids; `server` is the list
the GraphQL endpoint would answer. Pending evictions due at `now` fire
before the lookup. -/
def queryMarkets (marketListTTL : Nat) (server : List String)
    (st : CacheState (List String)) (filtersJson : Option String) (now : Nat) :
    List String × List Effect × CacheState (List String) :=
  let st1 := fireDueTimers st now
  let key := marketsCacheKey filtersJson
  match getCachedData marketListTTL st1 key now with
  | some cachedList => (cachedList, [], st1)
  | none =>
      (server, [Effect.graphqlRequest "GetMarkets" key],
       cacheData st1 key server now marketListTTL)

/-- `createMarket` (lines 441-481): require a connected wallet, issue the
CreateMarket mutation, then delete the literal cache key "markets:" as its
market-list cache invalidation. -/
def createMarket (wallet : Option WalletState) (st : CacheState (List String)) :
    Except String Unit × List Effect × CacheState (List String) :=
  match wallet with
  | none => (Except.error "Wallet not connected", [], st)
  | some w =>
      (Except.ok (), [Effect.graphqlRequest "CreateMarket" w.address],
       cacheDelete st "markets:")

/-- Cache state after a first `queryMarkets` call with absent filters at
time 0 against a server holding one market. -/
def demoCacheAfterFirstQuery : CacheState (List String) :=
  (queryMarkets 30 ["m0"] emptyCache none 0).2.2

/-- Cache state after `createMarket` ran its invalidation on that state. -/
def demoCacheAfterCreate : CacheState (List String) :=
  (createMarket (some walletW) demoCacheAfterFirstQuery).2.2

/-- Claim C9 fails on the code: `queryMarkets` stores the market list
under the key "markets:undefined" (absent filters) while `createMarket`
deletes the different literal key "markets:", so after a market creation
the next `queryMarkets` still answers the stale pre-creation list from
cache and performs no network request, although the server now holds a
second market. -/
theorem createMarket_stale_cache :
    marketsCacheKey none ≠ "markets:" ∧
    (queryMarkets 30 ["m0", "m1"] demoCacheAfterCreate none 1).1 = ["m0"] ∧
    (queryMarkets 30 ["m0", "m1"] demoCacheAfterCreate none 1).2.1 = [] := by
  refine ⟨by decide, rfl, rfl⟩

/-- Batch-local status union of the `BatchOrder` interface (line 44). -/
inductive BatchStatus where
  | pending
  | processing
  | confirmed
  | failed
deriving DecidableEq

/-- The `BatchOrder` interface (lines 37-45): the UI-facing queue item. -/
structure BatchOrder where
  id : String
  marketId : String
  marketDescription : String
  side : Side
  amount : Nat
  timestamp : Nat
  status : BatchStatus
deriving DecidableEq

/-- The order built from a queue item inside `processBatchQueue`
(lines 573-578): only marketId, side, the stringified amount and the
timestamp are populated. -/
def batchOrderToOrder (b : BatchOrder) : Order :=
  { marketId := b.marketId, side := b.side, amount := toString b.amount,
    timestamp := some b.timestamp }

/-- The batch-accumulator fields of the client: the queue (line 224) and
whether a flush timer is pending (line 225). -/
structure BatchQueueState where
  batchQueue : List BatchOrder
  batchTimer : Bool
deriving DecidableEq

/-- Events dispatched by `emitEvent` (line 885) during a flush attempt. -/
inductive ClientEvent where
  | batchSuccess (count : Nat) (timestamp : Nat)
  | batchError (message : String) (remainingOrders : Nat)
deriving DecidableEq

/-- `processBatchQueue` (lines 566-602): an empty queue only clears the
timer; otherwise the queue is mapped to wire orders and dispatched. On
success the queue is emptied and batch-success carries the dispatched
count; on a dispatch error the catch block emits batch-error with the
CURRENT queue length and leaves the queue untouched; the finally block
clears the timer on every path. `dispatch` stands for the awaited
`submitBatchedOrders` call and `now` for `Date.now()`. -/
def processBatchQueue (dispatch : List Order → Except String BatchResponse) (now : Nat)
    (s : BatchQueueState) : BatchQueueState × List ClientEvent :=
  if s.batchQueue.isEmpty then
    ({ s with batchTimer := false }, [])
  else
    match dispatch (s.batchQueue.map batchOrderToOrder) with
    | Except.ok _ =>
        ({ batchQueue := [], batchTimer := false },
         [ClientEvent.batchSuccess (s.batchQueue.map batchOrderToOrder).length now])
    | Except.error e =>
        ({ batchQueue := s.batchQueue, batchTimer := false },
         [ClientEvent.batchError e s.batchQueue.length])

/-- A concrete queue item for the failing-flush scenario. -/
def batchItemW : BatchOrder :=
  { id := "b1", marketId := "mkt", marketDescription := "demo market",
    side := Side.NO, amount := 5, timestamp := 10, status := BatchStatus.pending }

/-- A dispatch that throws, as `submitBatchedOrders` does on any failed
send or missing session. -/
def failingDispatch : List Order → Except String BatchResponse :=
  fun _ => Except.error "boom"

/-- Counterexample to claim C2: a flush of a one-item queue whose dispatch
throws leaves the item in the queue; the claim states the queue is left
empty after the flush. -/
theorem batch_error_queue_not_cleared :
    (processBatchQueue failingDispatch 99 ⟨[batchItemW], true⟩).1.batchQueue = [batchItemW] ∧
    [batchItemW] ≠ ([] : List BatchOrder) := by
  refine ⟨rfl, by decide⟩

/-- Claim C2 amended: for every non-empty batch queue whose dispatch
throws, the flush leaves the queue UNCHANGED (not cleared), clears the
pending timer, and emits exactly one batch-error event whose
remaining-count field equals the number of orders that were in the queue. -/
theorem processBatchQueue_error_event
    (dispatch : List Order → Except String BatchResponse) (now : Nat)
    (s : BatchQueueState) (e : String)
    (hne : s.batchQueue ≠ [])
    (hd : dispatch (s.batchQueue.map batchOrderToOrder) = Except.error e) :
    processBatchQueue dispatch now s =
      ({ batchQueue := s.batchQueue, batchTimer := false },
       [ClientEvent.batchError e s.batchQueue.length]) := by
  obtain ⟨q, t⟩ := s
  cases q with
  | nil => exact absurd rfl hne
  | cons b rest =>
      simp only [List.map_cons] at hd
      simp [processBatchQueue, hd]

/-- Witness for the amended C2: the concrete one-item queue with the
throwing dispatch keeps its item and emits batch-error with
remainingOrders = 1. -/
theorem processBatchQueue_error_event_witness :
    processBatchQueue failingDispatch 99 ⟨[batchItemW], true⟩ =
      ({ batchQueue := [batchItemW], batchTimer := false },
       [ClientEvent.batchError "boom" 1]) :=
  processBatchQueue_error_event failingDispatch 99 ⟨[batchItemW], true⟩ "boom"
    (by decide) rfl

/-- WebSocket readyState values of the platform channel used by the
subscription methods. -/
inductive WsReadyState where
  | connecting
  | opened
  | closing
  | closed
deriving DecidableEq

/-- An outbound control frame: the subscription id and the frame type
string, as serialized by the source (lines 733-736). -/
structure OutFrame where
  id : String
  ftype : String
deriving DecidableEq

/-- A push channel: its readyState, the control frames sent over it, and
how many times a close was actually initiated on it. -/
structure WsChannel where
  readyState : WsReadyState
  sentFrames : List OutFrame
  closeInits : Nat
deriving DecidableEq

/-- WebSocket close() per the platform contract the source relies on: a
channel already closing or closed is left untouched (no duplicate close
side effect); otherwise the close is initiated exactly once and the
readyState moves to closing. -/
def wsClose (c : WsChannel) : WsChannel :=
  if c.readyState = WsReadyState.closing ∨ c.readyState = WsReadyState.closed then c
  else { c with readyState := WsReadyState.closing, closeInits := c.closeInits + 1 }

/-- The state an unsubscribe closure touches: its channel and the
client-wide subscription registry keyed by subscription id (line 222). -/
structure SubsState where
  ch : WsChannel
  registry : List String
deriving DecidableEq

/-- The `unsubscribe` closure returned by `subscribeToMarketUpdates`
(lines 730-741) and, identically, by `subscribeToOrderUpdates`
(lines 780-791): send a best-effort unsubscribe control frame only while
the channel is still open, then close the channel and delete the
subscription id from the registry. -/
def unsubscribeHandle (sid : String) (s : SubsState) : SubsState :=
  let ch1 := if s.ch.readyState = WsReadyState.opened
    then { s.ch with sentFrames := s.ch.sentFrames ++ [⟨sid, "unsubscribe"⟩] }
    else s.ch
  { ch := wsClose ch1, registry := s.registry.filter (fun k => ! decide (k = sid)) }

/-- Claim C6: calling the unsubscribe closure twice equals calling it
once (idempotent teardown, no error), and a single call on an open
channel initiates exactly one close, sends exactly one unsubscribe frame
and removes the id from the registry. -/
theorem unsubscribe_idempotent (s : SubsState) (sid : String) :
    unsubscribeHandle sid (unsubscribeHandle sid s) = unsubscribeHandle sid s ∧
    (s.ch.readyState = WsReadyState.opened →
       (unsubscribeHandle sid s).ch.closeInits = s.ch.closeInits + 1 ∧
       (unsubscribeHandle sid s).ch.sentFrames = s.ch.sentFrames ++ [⟨sid, "unsubscribe"⟩] ∧
       sid ∉ (unsubscribeHandle sid s).registry) := by
  obtain ⟨⟨rs, fr, ci⟩, reg⟩ := s
  constructor
  · cases rs <;>
      simp [unsubscribeHandle, wsClose, List.filter_filter, List.mem_filter]
  · intro h
    simp only at h
    subst h
    simp [unsubscribeHandle, wsClose, List.mem_filter]

/-- Witness for C6: a concrete open channel with one registered
subscription; the double call equals the single call, which sends one
frame, closes once and empties the registry. -/
theorem unsubscribe_idempotent_witness :
    unsubscribeHandle "sub-1" (unsubscribeHandle "sub-1" ⟨⟨WsReadyState.opened, [], 0⟩, ["sub-1"]⟩) =
      unsubscribeHandle "sub-1" ⟨⟨WsReadyState.opened, [], 0⟩, ["sub-1"]⟩ ∧
    (unsubscribeHandle "sub-1" ⟨⟨WsReadyState.opened, [], 0⟩, ["sub-1"]⟩).ch.closeInits = 0 + 1 ∧
    (unsubscribeHandle "sub-1" ⟨⟨WsReadyState.opened, [], 0⟩, ["sub-1"]⟩).ch.sentFrames =
      [] ++ [⟨"sub-1", "unsubscribe"⟩] ∧
    "sub-1" ∉ (unsubscribeHandle "sub-1" ⟨⟨WsReadyState.opened, [], 0⟩, ["sub-1"]⟩).registry := by
  have h := unsubscribe_idempotent ⟨⟨WsReadyState.opened, [], 0⟩, ["sub-1"]⟩ "sub-1"
  exact ⟨h.1, h.2 rfl⟩

/-- Values a JSON text can parse to; the JavaScript undefined produced by
a missing property is the `none` of the `Option JVal` accessors below. -/
inductive JVal where
  | null
  | bool (b : Bool)
  | num (n : Int)
  | str (s : String)
  | arr (elems : List JVal)
  | obj (fields : List (String × JVal))

/-- Plain property access `v.k`: a field of an object, undefined on a
missing field and on every non-object. -/
def jGet : JVal → String → Option JVal
  | JVal.obj fields, k => (fields.find? (fun f => f.1 = k)).map (fun f => f.2)
  | _, _ => none

/-- Optional-chaining access `v?.k`: short-circuits to undefined on
undefined and null, accesses a field on an object, and yields undefined on
primitives. -/
def jOptChain (v : Option JVal) (k : String) : Option JVal :=
  match v with
  | some (JVal.obj fields) => (fields.find? (fun f => f.1 = k)).map (fun f => f.2)
  | _ => none

/-- The strict comparison `data.type === 'data'` of the handler
(line 716). -/
def isDataType (d : JVal) : Bool :=
  match jGet d "type" with
  | some (JVal.str s) => s = "data"
  | _ => false

/-- The chained access `data.payload?.data?.marketUpdates` of the handler
(line 716). -/
def marketUpdatesField (d : JVal) : Option JVal :=
  jOptChain (jOptChain (jGet d "payload") "data") "marketUpdates"

/-- JavaScript truthiness of the accessed value: undefined, null, false,
0 and the empty string are falsy; arrays and objects are truthy. -/
def jTruthy : Option JVal → Bool
  | none => false
  | some JVal.null => false
  | some (JVal.bool b) => b
  | some (JVal.num n) => ! decide (n = 0)
  | some (JVal.str s) => ! decide (s = "")
  | some (JVal.arr _) => true
  | some (JVal.obj _) => true

/-- The try block of the market-updates onmessage handler (lines 712-718):
JSON.parse may throw (an error result of `parse`), and the callback is
invoked exactly when the parsed frame has type "data" and a truthy
marketUpdates payload, with that payload as argument. -/
def onMarketMessageTry (parse : String → Except String JVal) (raw : String) :
    Except String (Option JVal) :=
  match parse raw with
  | Except.error e => Except.error e
  | Except.ok d =>
      Except.ok (if isDataType d && jTruthy (marketUpdatesField d)
        then marketUpdatesField d else none)

/-- The full onmessage handler (lines 712-722): the catch block turns any
parse failure into a logged no-op, so the handler is total and returns the
callback argument when the callback fires and nothing otherwise. -/
def onMarketMessage (parse : String → Except String JVal) (raw : String) : Option JVal :=
  match onMarketMessageTry parse raw with
  | Except.error _ => none
  | Except.ok r => r

/-- Claim C7: the onmessage handler never lets an exception escape (it is
the total function `onMarketMessage`); a frame that fails to parse invokes
no callback, and whenever the callback is invoked the frame parsed to a
value of type "data" carrying a truthy marketUpdates payload, which is the
callback argument. -/
theorem onMarketMessage_safe (parse : String → Except String JVal) (raw : String) :
    (∀ e, parse raw = Except.error e → onMarketMessage parse raw = none) ∧
    (∀ u, onMarketMessage parse raw = some u →
       ∃ d, parse raw = Except.ok d ∧ isDataType d = true ∧
            jTruthy (marketUpdatesField d) = true ∧ marketUpdatesField d = some u) := by
  constructor
  · intro e h
    simp [onMarketMessage, onMarketMessageTry, h]
  · intro u h
    cases hp : parse raw with
    | error e => simp [onMarketMessage, onMarketMessageTry, hp] at h
    | ok d =>
        simp only [onMarketMessage, onMarketMessageTry, hp] at h
        by_cases hc : (isDataType d && jTruthy (marketUpdatesField d)) = true
        · rw [if_pos hc] at h
          obtain ⟨hd1, hd2⟩ := Bool.and_eq_true_iff.mp hc
          exact ⟨d, rfl, hd1, hd2, h⟩
        · rw [if_neg hc] at h
          exact absurd h (by simp)

/-- A parse function that rejects every frame, standing for JSON.parse on
a non-JSON payload. -/
def rejectingParse : String → Except String JVal :=
  fun _ => Except.error "Unexpected token"

/-- Witness for C7: a non-JSON frame makes the handler invoke no callback
and raise nothing. -/
theorem onMarketMessage_safe_witness :
    onMarketMessage rejectingParse "not json" = none :=
  (onMarketMessage_safe rejectingParse "not json").1 "Unexpected token" rfl

/-- `getUserPositions` (lines 614-627): resolve the target user chain from
the explicit argument or the optional wallet with JavaScript falsiness; an
unresolved target returns the empty list with no network request,
otherwise the GetUserPositions query is issued. `positionsOf` is the
GraphQL server answer. -/
def getUserPositions {α : Type} (positionsOf : String → List α)
    (wallet : Option WalletState) (userChainId : Option String) :
    List α × List Effect :=
  match jsStrOr userChainId (wallet.bind (fun w => w.userChainId)) with
  | none => ([], [])
  | some target =>
      if target = "" then ([], [])
      else (positionsOf target, [Effect.graphqlRequest "GetUserPositions" target])

/-- Claim C10: `getUserPositions` called with no argument while no wallet
session is active returns the empty list and performs no network request
instead of failing. -/
theorem getUserPositions_disconnected {α : Type} (positionsOf : String → List α) :
    getUserPositions positionsOf none none = ([], []) := rfl

/-- The await boundaries of two concurrent one-group flushes A and B on
the same origin chain: each flush fetches its nonce from the external
endpoint and then performs its cross-chain send. The single-threaded
event loop may interleave the two flushes at these boundaries. -/
inductive RaceStep where
  | fetchA
  | sendA
  | fetchB
  | sendB
deriving DecidableEq

/-- Modelled from the spec: the external nonce endpoint (section 6,
request originChainId, response the nonce integer) is a read of the
current per-origin counter of the service, which advances when a
dispatched batch message is processed; the endpoint implementation is not
part of the repository. `gotA` and `gotB` record the value each flush
fetched. -/
structure NonceWorld where
  server : Nat
  gotA : Option Nat
  gotB : Option Nat
deriving DecidableEq

/-- One scheduled step: a fetch stores the current counter into the flush
that asked; processing a send advances the counter. -/
def raceStep (w : NonceWorld) : RaceStep → NonceWorld
  | RaceStep.fetchA => { w with gotA := some w.server }
  | RaceStep.fetchB => { w with gotB := some w.server }
  | RaceStep.sendA => { w with server := w.server + 1 }
  | RaceStep.sendB => { w with server := w.server + 1 }

/-- Execution of a schedule of interleaved steps. -/
def runRace (w : NonceWorld) (sched : List RaceStep) : NonceWorld :=
  sched.foldl raceStep w

/-- A schedule is an interleaving of two program step sequences: it
preserves the order of each program, so it is a schedule the cooperative
event loop can produce. -/
inductive Interleaves : List RaceStep → List RaceStep → List RaceStep → Prop where
  | nil : Interleaves [] [] []
  | left {x : RaceStep} {xs ys zs : List RaceStep} :
      Interleaves xs ys zs → Interleaves (x :: xs) ys (x :: zs)
  | right {y : RaceStep} {xs ys zs : List RaceStep} :
      Interleaves xs ys zs → Interleaves xs (y :: ys) (y :: zs)

/-- The racy schedule: both flushes fetch their nonce before either send
is processed. Nothing in `submitBatchedOrders` prevents it, since the
source takes no lock between its `getNonce` await and its send await. -/
def racySched : List RaceStep :=
  [RaceStep.fetchA, RaceStep.fetchB, RaceStep.sendA, RaceStep.sendB]

/-- The world after the racy schedule runs from counter 0. -/
def raceWorld : NonceWorld := runRace ⟨0, none, none⟩ racySched

/-- Environment flush A sees under the racy schedule: its only nonce fetch
returned the value recorded in `raceWorld.gotA`. -/
def raceEnvA : DispatchEnv :=
  { registry := [], nonces := fun _ => raceWorld.gotA.getD 0,
    sends := fun _ => Except.ok "txA", now := 0, genId := fun _ => "idA" }

/-- Environment flush B sees under the racy schedule. -/
def raceEnvB : DispatchEnv :=
  { registry := [], nonces := fun _ => raceWorld.gotB.getD 0,
    sends := fun _ => Except.ok "txB", now := 0, genId := fun _ => "idB" }

/-- The single order each concurrent flush dispatches. -/
def raceOrder : Order := { marketId := "mkt-race", side := Side.YES, amount := "1" }

/-- The session both concurrent flushes run under: same origin chain. -/
def raceWallet : WalletState :=
  { address := "0xrace", chainId := "root-chain", balance := "0",
    isConnected := true, provider := some "linera", userChainId := some "user-1" }

/-- Claim C8 fails on the code: the racy schedule is a legal interleaving
of the two flushes, under it both nonce fetches read the counter value 0,
and the two batches `submitBatchedOrders` then dispatches on the same
origin chain both carry nonce 0 — a duplicate, because the source takes no
single-flight lock between nonce fetch and send. -/
theorem concurrent_flush_nonce_collision :
    Interleaves [RaceStep.fetchA, RaceStep.sendA] [RaceStep.fetchB, RaceStep.sendB] racySched ∧
    raceWorld.gotA = some 0 ∧ raceWorld.gotB = some 0 ∧
    (sentMessages (submitBatchedOrders raceEnvA (some raceWallet) [raceOrder] (some "user-1")).2).map
        (fun p => p.2.nonce) = [0] ∧
    (sentMessages (submitBatchedOrders raceEnvB (some raceWallet) [raceOrder] (some "user-1")).2).map
        (fun p => p.2.nonce) = [0] := by
  refine ⟨?_, rfl, rfl, rfl, rfl⟩
  exact Interleaves.left (Interleaves.right (Interleaves.left (Interleaves.right Interleaves.nil)))

end OddsStream
